import Mathlib

/-
  Verification development for the MovieManagementSystem backend.

  The definitions below are a shallow embedding of the route handlers and
  mongoose model middleware of the repository: object ids become naturals,
  documents become structures, the datastore becomes explicit state, JS
  numbers used as ratings become exact rationals, and the handlers become
  state-passing functions returning the HTTP response together with the next
  datastore state.
-/

namespace MMS

/-- Object ids are opaque Mongo identifiers; we model them as naturals.  Every
modelled id passes the mongoose ObjectId format validity check, so that check
never fires in the embedding. -/
abbrev OId := Nat

/-- HTTP status plus the message field of the JSON envelope. -/
structure HttpOut where
  status : Nat
  message : String
  deriving DecidableEq

/-- Movie document, restricted to the fields the verified routes read or
write. -/
structure Movie where
  mid : OId
  genre : List String
  actors : List OId
  directors : List OId
  releaseDate : Int
  averageRating : ℚ
  deriving DecidableEq

/-- ReviewAndRating document.  The schema marks user, movie, rating and
reviewText as required, so every document that passed save validation carries
all four. -/
structure Review where
  rid : OId
  user : OId
  movie : OId
  rating : ℚ
  reviewText : String
  createdAt : Nat
  updatedAt : Nat
  deriving DecidableEq

/-- The slice of the datastore that the review routes touch. -/
structure ReviewDB where
  movies : List Movie
  users : List OId
  reviews : List Review
  deriving DecidableEq

def findMovie (db : ReviewDB) (m : OId) : Option Movie :=
  db.movies.find? (fun mv => mv.mid == m)

/-- ReviewAndRating.find with a movie filter. -/
def reviewsFor (db : ReviewDB) (m : OId) : List Review :=
  db.reviews.filter (fun r => r.movie == m)

/-- The recompute used by both the route helper and the schema middleware:
sum of the rating fields divided by the number of reviews, in exact rational
arithmetic.  Rational division by zero yields 0 where JS yields NaN; both
recompute call sites run right after a save of a review for the movie, so the
review list there is never empty. -/
def meanRating (rs : List Review) : ℚ :=
  (rs.map (fun r => r.rating)).sum / (rs.length : ℚ)

/-- Overwrite the stored averageRating of movie m. -/
def setMovieRating (m : OId) (q : ℚ) (db : ReviewDB) : ReviewDB :=
  { db with
    movies := db.movies.map (fun mv =>
      if mv.mid == m then { mv with averageRating := q } else mv) }

/-- The updateMovieRating helper of routes/reviews.js: refetch every review of
the movie and overwrite the movie averageRating with the mean. -/
def updateMovieRating (m : OId) (db : ReviewDB) : ReviewDB :=
  setMovieRating m (meanRating (reviewsFor db m)) db

/-- The post save middleware of reviewAndRatingSchema: fetch the movie, fetch
all its reviews, write the mean of their ratings back onto the movie.  The
none branch models the middleware throwing because the movie document no
longer exists, which makes the surrounding save call reject. -/
def reviewPostSaveHook (m : OId) (db : ReviewDB) : Option ReviewDB :=
  match findMovie db m with
  | none => none
  | some _ => some (setMovieRating m (meanRating (reviewsFor db m)) db)

/-- JS truthiness of an optional numeric body field: absent and 0 are falsy. -/
def truthyRating : Option ℚ → Bool
  | none => false
  | some q => !(q == 0)

/-- JS truthiness of an optional string body field: absent and the empty
string are falsy.  Mongoose required validation on a String path fails on
exactly these two cases. -/
def truthyText : Option String → Bool
  | none => false
  | some s => !(s == "")

/-- Body of POST /api/reviews/. -/
structure CreateBody where
  movie : Option OId
  rating : Option ℚ
  reviewText : Option String
  deriving DecidableEq

/-- POST /api/reviews/ of routes/reviews.js.  userId comes from the decoded
token, newRid is the fresh document id, now is the clock.  The branch order
follows the handler: mandatory fields, rating range, movie lookup, user
lookup, duplicate review lookup, then save.  The save enforces the schema, in
particular that reviewText is required, and a schema violation surfaces as
the 500 of the catch block with the state unchanged.  A successful save runs
the post save middleware and then the updateMovieRating helper. -/
def createReview (body : CreateBody) (userId : OId) (newRid : OId) (now : Nat)
    (db : ReviewDB) : HttpOut × ReviewDB :=
  match body.movie, body.rating with
  | some m, some q =>
    if q == 0 then
      (⟨400, "MovieID, rating are mandatory fields while reviewText is optional"⟩, db)
    else if q < 1 || 5 < q then
      (⟨400, "Rating must be between 1 and 5"⟩, db)
    else
      match findMovie db m with
      | none => (⟨404, "Movie not found"⟩, db)
      | some _ =>
        if !(db.users.contains userId) then
          (⟨404, "User not found"⟩, db)
        else if (db.reviews.find? (fun r => r.user == userId && r.movie == m)).isSome then
          (⟨400, "You have already reviewed this movie"⟩, db)
        else if !(truthyText body.reviewText) then
          (⟨500, "Error adding review"⟩, db)
        else
          let r : Review :=
            { rid := newRid, user := userId, movie := m, rating := q,
              reviewText := body.reviewText.getD "", createdAt := now, updatedAt := now }
          let db1 : ReviewDB := { db with reviews := db.reviews ++ [r] }
          match reviewPostSaveHook m db1 with
          | none => (⟨500, "Error adding review"⟩, db1)
          | some db2 =>
            (⟨201, "Review and rating added successfully"⟩, updateMovieRating m db2)
  | _, _ =>
    (⟨400, "MovieID, rating are mandatory fields while reviewText is optional"⟩, db)

/-- Body of PUT /api/reviews/:reviewId. -/
structure UpdateBody where
  rating : Option ℚ
  reviewText : Option String
  deriving DecidableEq

/-- PUT /api/reviews/:reviewId of routes/reviews.js.  Branch order follows the
handler: at least one field present, rating range when a rating is given,
review lookup, ownership, then the field updates, the save with its post save
middleware, and the updateMovieRating helper. -/
def updateReview (reviewId : OId) (body : UpdateBody) (userId : OId) (now : Nat)
    (db : ReviewDB) : HttpOut × ReviewDB :=
  if !truthyRating body.rating && !truthyText body.reviewText then
    (⟨400, "Either rating or reviewText must be provided for update"⟩, db)
  else if truthyRating body.rating &&
      ((body.rating.getD 0) < 1 || 5 < (body.rating.getD 0)) then
    (⟨400, "Rating must be between 1 and 5"⟩, db)
  else
    match db.reviews.find? (fun r => r.rid == reviewId) with
    | none => (⟨404, "Review not found"⟩, db)
    | some r =>
      if !(r.user == userId) then
        (⟨403, "You are not authorized to update this review"⟩, db)
      else
        let r1 := if truthyRating body.rating then
          { r with rating := body.rating.getD r.rating } else r
        let r2 := if truthyText body.reviewText then
          { r1 with reviewText := body.reviewText.getD r1.reviewText } else r1
        let r3 := { r2 with updatedAt := now }
        let db1 : ReviewDB :=
          { db with reviews := db.reviews.map (fun x => if x.rid == reviewId then r3 else x) }
        match reviewPostSaveHook r3.movie db1 with
        | none => (⟨500, "Error updating review"⟩, db1)
        | some db2 =>
          (⟨200, "Review updated successfully"⟩, updateMovieRating r3.movie db2)

/-- Insertion into an already ordered list, stable for equal keys. -/
def insertOrdered {α : Type _} (le : α → α → Bool) (a : α) : List α → List α
  | [] => [a]
  | b :: bs => if le a b then a :: b :: bs else b :: insertOrdered le a bs

/-- Stable insertion sort, modelling the datastore sort stages. -/
def sortOrdered {α : Type _} (le : α → α → Bool) : List α → List α
  | [] => []
  | a :: as => insertOrdered le a (sortOrdered le as)

/-- GET /api/reviews/:movieId: the reviews of the movie, most recent first;
an empty review set is reported as a 404, not as an empty list. -/
def getMovieReviews (m : OId) (db : ReviewDB) : HttpOut × List Review :=
  let rs := sortOrdered (fun a b => b.createdAt ≤ a.createdAt) (reviewsFor db m)
  if rs.length == 0 then (⟨404, "No reviews found for this movie"⟩, [])
  else (⟨200, ""⟩, rs)

/-- GET /api/reviews/average/:movieId: the mean rating of the movie; an empty
review set is reported as a 404, not as an average of 0. -/
def getAverageRating (m : OId) (db : ReviewDB) : HttpOut × Option ℚ :=
  let rs := reviewsFor db m
  if rs.length == 0 then (⟨404, "No reviews found for this movie"⟩, none)
  else (⟨200, ""⟩, some (meanRating rs))

/-- A query string value as the pagination code sees it: none is an absent
parameter, some none is a present value that parseInt turns into NaN, and
some (some k) is a present value that parseInt turns into the integer k. -/
abbrev QVal := Option (Option Int)

/-- The page coercion of GET /api/wishlist/: destructuring default 1 when
absent, then page = Math.max(1, parseInt(page)).  Math.max propagates NaN,
modelled as none. -/
def wishlistPageOf : QVal → Option Int
  | none => some 1
  | some none => none
  | some (some k) => some (max 1 k)

/-- The limit coercion of GET /api/wishlist/: destructuring default 10 when
absent, then limit = parseInt(limit) with no clamping at all. -/
def wishlistLimitOf : QVal → Option Int
  | none => some 10
  | some none => none
  | some (some k) => some k

/-- The page coercion of GET /api/customlist/all: default 1, then
Math.max(1, parseInt(page)). -/
def customAllPageOf : QVal → Option Int
  | none => some 1
  | some none => none
  | some (some k) => some (max 1 k)

/-- The limit coercion of GET /api/customlist/all: default 10, then
Math.max(1, parseInt(limit)). -/
def customAllLimitOf : QVal → Option Int
  | none => some 10
  | some none => none
  | some (some k) => some (max 1 k)

/-- The page coercion of GET /api/movies/upcoming: parseInt(req.query.page)
with a fallback of 1 through JS or, so NaN and 0 become 1 while negative
values pass through unchanged. -/
def upcomingPageOf : QVal → Int
  | none => 1
  | some none => 1
  | some (some k) => if k = 0 then 1 else k

/-- The limit coercion of GET /api/movies/upcoming: parseInt(req.query.limit)
with a fallback of 10 through JS or. -/
def upcomingLimitOf : QVal → Int
  | none => 10
  | some none => 10
  | some (some k) => if k = 0 then 10 else k

/-- Math.ceil(n / k) for natural n and positive k.  The verified pagination
properties only evaluate it at limits of at least 1. -/
def jsCeilDiv (n k : Nat) : Nat := (n + k - 1) / k

/-- The pagination window: skip (page-1)*limit documents, return at most
limit of them. -/
def pageWindow {α : Type _} (page limit : Nat) (l : List α) : List α :=
  (l.drop ((page - 1) * limit)).take limit

/-- Response of GET /api/wishlist/ for numeric query values.  The populate
call applies skip and limit to the wishlist array itself, so the handler then
reads totalItemsCount from the already windowed array.  none models the 404
branch taken when that count is 0 and page is greater than 1. -/
structure WishlistRes where
  page : Nat
  totalPages : Nat
  totalItems : Nat
  wishlist : List OId
  deriving DecidableEq

/-- GET /api/wishlist/ of routes/wishlist.js on numeric, already coerced
pagination values. -/
def wishlistGet (wl : List OId) (page limit : Nat) : Option WishlistRes :=
  let window := pageWindow page limit wl
  let totalItemsCount := window.length
  let totalPages := if totalItemsCount == 0 then 1 else jsCeilDiv totalItemsCount limit
  if totalItemsCount == 0 && 1 < page then none
  else some ⟨page, totalPages, totalItemsCount, window⟩

/-- Pagination block of GET /api/customlist/all; each custom list is
abstracted to its id, the route only pages over them.  none models the 404
branch taken when the window is empty and page is greater than 1. -/
structure CustomAllRes where
  page : Nat
  totalPages : Nat
  totalItems : Nat
  customLists : List OId
  deriving DecidableEq

/-- GET /api/customlist/all on numeric, already coerced pagination values. -/
def customListsAll (ls : List OId) (page limit : Nat) : Option CustomAllRes :=
  let window := pageWindow page limit ls
  let totalItemsCount := ls.length
  let totalPages := if totalItemsCount == 0 then 1 else jsCeilDiv totalItemsCount limit
  if window.length == 0 && 1 < page then none
  else some ⟨page, totalPages, totalItemsCount, window⟩

/-- Response of GET /api/movies/upcoming. -/
structure UpcomingRes where
  totalMovies : Nat
  page : Nat
  totalPages : Nat
  data : List Movie
  deriving DecidableEq

/-- GET /api/movies/upcoming on numeric pagination values: filter to release
dates from today on, sort ascending by release date, window, and report
totalPages as the plain ceiling with no floor at 1. -/
def upcomingMovies (movies : List Movie) (today : Int) (page limit : Nat) : UpcomingRes :=
  let ups := movies.filter (fun m => today ≤ m.releaseDate)
  let sorted := sortOrdered (fun a b => a.releaseDate ≤ b.releaseDate) ups
  { totalMovies := ups.length
    page := page
    totalPages := jsCeilDiv ups.length limit
    data := pageWindow page limit sorted }

/-- One paginated block of the GET /api/recommendations/trending-movies
response. -/
structure PagedBlock where
  movies : List Movie
  page : Nat
  totalPages : Nat
  totalItems : Nat
  deriving DecidableEq

/-- The trending block of GET /api/recommendations/trending-movies: all
movies sorted by averageRating descending, windowed, with the full collection
count as totalItems. -/
def trendingBlock (movies : List Movie) (page limit : Nat) : PagedBlock :=
  let sorted := sortOrdered (fun a b => b.averageRating ≤ a.averageRating) movies
  let total := movies.length
  { movies := pageWindow page limit sorted
    page := page
    totalPages := if total == 0 then 1 else jsCeilDiv total limit
    totalItems := total }

/-- The topRated block of the same handler, written out separately because the
source repeats the query verbatim: all movies sorted by averageRating
descending, windowed, with the full collection count as totalItems. -/
def topRatedBlock (movies : List Movie) (page limit : Nat) : PagedBlock :=
  let sorted := sortOrdered (fun a b => b.averageRating ≤ a.averageRating) movies
  let total := movies.length
  { movies := pageWindow page limit sorted
    page := page
    totalPages := if total == 0 then 1 else jsCeilDiv total limit
    totalItems := total }

/-- A user as the wishlist routes see one. -/
structure WUser where
  uid : OId
  wishlist : List OId
  deriving DecidableEq

/-- The slice of the datastore the wishlist add route touches.  movies is the
set of ids present in the Movie collection; the handler never queries it. -/
structure WishDB where
  movies : List OId
  users : List WUser
  deriving DecidableEq

/-- POST /api/wishlist/add of routes/wishlist.js: require a movieId, find the
user, reject a duplicate, then push the id onto the wishlist and save.  No
lookup against the Movie collection happens anywhere in the handler. -/
def wishlistAdd (movieId : Option OId) (userId : OId) (db : WishDB) : HttpOut × WishDB :=
  match movieId with
  | none => (⟨400, "Movie ID is required"⟩, db)
  | some m =>
    match db.users.find? (fun u => u.uid == userId) with
    | none => (⟨404, "User not found"⟩, db)
    | some u =>
      if u.wishlist.contains m then (⟨400, "Movie already in wishlist"⟩, db)
      else
        (⟨200, "Movie added to wishlist successfully"⟩,
          { db with users := db.users.map (fun x =>
              if x.uid == userId then { x with wishlist := x.wishlist ++ [m] } else x) })

/-- News document. -/
structure News where
  nid : OId
  title : String
  description : String
  content : String
  category : String
  relatedMovies : List OId
  relatedActors : List OId
  deriving DecidableEq

/-- The slice of the datastore the news routes touch. -/
structure NewsDB where
  newsArticles : List News
  persons : List OId
  movies : List OId
  deriving DecidableEq

/-- The checkObjectIdsExist helper of the news routes.  Although the update
route also applies it to related movie ids, it always queries the Person
collection and returns the requested ids not found there. -/
def checkObjectIdsExist (ids : List OId) (db : NewsDB) : List OId :=
  ids.filter (fun i => !(db.persons.contains i))

/-- Body of PUT /api/news/update-news/:id.  Fields are typed as the schema
expects them, so the typeof and Array.isArray guards of the handler never
fire in the embedding; a provided empty array is truthy, as in JS. -/
structure NewsUpdateBody where
  title : Option String
  description : Option String
  content : Option String
  category : Option String
  relatedMovies : Option (List OId)
  relatedActors : Option (List OId)
  deriving DecidableEq

def validCategories : List String := ["Movies", "Actors", "Projects", "Industry", "Drama"]

def idsMessage (head : String) (ids : List OId) : String :=
  head ++ String.intercalate ", " (ids.map toString)

/-- The final field updates of PUT /api/news/update-news/:id: only truthy
provided fields overwrite the stored article; a provided array, also an empty
one, replaces the stored id list. -/
def applyNewsUpdates (art : News) (body : NewsUpdateBody) : News :=
  let a1 := if truthyText body.title then { art with title := body.title.getD art.title } else art
  let a2 := if truthyText body.description then
    { a1 with description := body.description.getD a1.description } else a1
  let a3 := if truthyText body.content then { a2 with content := body.content.getD a2.content } else a2
  let a4 := if truthyText body.category then { a3 with category := body.category.getD a3.category } else a3
  let a5 := match body.relatedMovies with
    | some rms => { a4 with relatedMovies := rms }
    | none => a4
  match body.relatedActors with
    | some ras => { a5 with relatedActors := ras }
    | none => a5

/-- The tail of the update handler after the related movie check: the no
fields guard, the related actor ids check, again through checkObjectIdsExist
and so against the Person collection, then the field updates. -/
def updateNewsTail (art : News) (body : NewsUpdateBody) (db : NewsDB) :
    Except HttpOut News :=
  if !truthyText body.title && !truthyText body.description && !truthyText body.content &&
      !truthyText body.category && !body.relatedMovies.isSome && !body.relatedActors.isSome then
    .error ⟨400, "No fields provided to update. Nothing was updated."⟩
  else
    match body.relatedActors with
    | some ras =>
      if 0 < (checkObjectIdsExist ras db).length then
        .error ⟨400, idsMessage "The following related actor IDs do not exist: "
          (checkObjectIdsExist ras db)⟩
      else .ok (applyNewsUpdates art body)
    | none => .ok (applyNewsUpdates art body)

/-- The straight line early return part of PUT /api/news/update-news/:id:
role gate, article lookup, category enum check, then the related movie ids
check, which goes through checkObjectIdsExist and therefore queries the
Person collection, not the Movie collection.  Returns the updated article on
success. -/
def updateNewsE (nid : OId) (body : NewsUpdateBody) (role : String) (db : NewsDB) :
    Except HttpOut News :=
  if !(role == "admin") then .error ⟨403, "Access denied. You are not an admin."⟩
  else
    match db.newsArticles.find? (fun n => n.nid == nid) with
    | none => .error ⟨404, "News article not found."⟩
    | some art =>
      if truthyText body.category && !(validCategories.contains (body.category.getD "")) then
        .error ⟨400, "Category must be one of: Movies, Actors, Projects, Industry, Drama"⟩
      else
        match body.relatedMovies with
        | some rms =>
          if 0 < (checkObjectIdsExist rms db).length then
            .error ⟨400, idsMessage "The following related movie IDs do not exist: "
              (checkObjectIdsExist rms db)⟩
          else updateNewsTail art body db
        | none => updateNewsTail art body db

/-- PUT /api/news/update-news/:id: response plus next state. -/
def updateNews (nid : OId) (body : NewsUpdateBody) (role : String) (db : NewsDB) :
    HttpOut × NewsDB :=
  match updateNewsE nid body role db with
  | .error e => (e, db)
  | .ok art =>
    (⟨200, "News article updated successfully"⟩,
      { db with newsArticles := db.newsArticles.map (fun n => if n.nid == nid then art else n) })

/-- A user as the notification service sees one: the schema paths it reads. -/
structure NUser where
  username : String
  email : String
  role : String
  favoriteGenres : List String
  favoriteActors : List OId
  remindersForNewReleases : Bool
  sendNotifications : Bool
  deriving DecidableEq

/-- A movie as the notification service sees one. -/
structure NMovie where
  mid : OId
  title : String
  genre : List String
  actors : List OId
  releaseDate : Int
  deriving DecidableEq

/-- Reading user.type on a mongoose User document: the user schema declares
no type path (the role field holds the role), so the access always yields
undefined. -/
def userTypeField (_ : NUser) : Option String := none

/-- The relevant movie filter of checkUpcomingMovies: keep an upcoming movie
when it shares a favorite genre or features a favorite actor of the user. -/
def relevantFor (u : NUser) (upcoming : List NMovie) : List NMovie :=
  upcoming.filter (fun m =>
    m.genre.any (fun g => u.favoriteGenres.contains g) ||
    m.actors.any (fun a => u.favoriteActors.contains a))

/-- NotificationService.sendNotification: renders the email and hands it to
the provider only when the user has sendNotifications set and a truthy email
address; returns the recipient addresses actually dispatched. -/
def sendNotification (u : NUser) : List String :=
  if u.sendNotifications && !(u.email == "") then [u.email] else []

/-- NotificationService.checkUpcomingMovies: select movies releasing between
now and nextMonth, select users with either notification flag set, skip a
user when user.type reads admin, and for a non-empty relevant set call
sendNotification.  The result is the list of addresses emailed. -/
def checkUpcomingMovies (now nextMonth : Int) (movies : List NMovie)
    (users : List NUser) : List String :=
  let upcoming := movies.filter (fun m => now ≤ m.releaseDate && m.releaseDate ≤ nextMonth)
  let opted := users.filter (fun u => u.remindersForNewReleases || u.sendNotifications)
  (opted.map (fun u =>
    if userTypeField u == some "admin" then []
    else if 0 < (relevantFor u upcoming).length then sendNotification u
    else [])).flatten

/-- The movie averageRating of m agrees with the mean over its stored
reviews. -/
def ratingConsistentAt (db : ReviewDB) (m : OId) : Prop :=
  ∀ mv ∈ db.movies, mv.mid = m → mv.averageRating = meanRating (reviewsFor db m)

/-- The user and movie references of a review. -/
def pairOf (r : Review) : OId × OId := (r.user, r.movie)

/-- No two stored reviews share a (user, movie) pair. -/
def pairsUnique (db : ReviewDB) : Prop :=
  db.reviews.Pairwise (fun a b => ¬(pairOf a = pairOf b))

/-
  Theorems.
-/

/-- C8: the trending block and the topRated block of
GET /api/recommendations/trending-movies are computed by identical logic, so
for every movie collection, page and limit the two blocks agree on movies,
totalItems and totalPages. -/
theorem trending_equals_topRated :
    ∀ (movies : List Movie) (page limit : Nat),
      trendingBlock movies page limit = topRatedBlock movies page limit := by
  intro movies page limit
  rfl

/-- C9: when a movie has no stored reviews, both GET /api/reviews/:movieId and
GET /api/reviews/average/:movieId answer 404 with the message No reviews found
for this movie, rather than an empty list or an average of 0. -/
theorem no_reviews_404 :
    ∀ (m : OId) (db : ReviewDB), reviewsFor db m = [] →
      (getMovieReviews m db).1 = ⟨404, "No reviews found for this movie"⟩ ∧
      (getAverageRating m db).1 = ⟨404, "No reviews found for this movie"⟩ := by
  intro m db h
  constructor
  · simp [getMovieReviews, h, sortOrdered]
  · simp [getAverageRating, h]

/-- Witness for no_reviews_404 on the empty datastore and movie id 5. -/
theorem no_reviews_404_witness :
    (getMovieReviews 5 ⟨[], [], []⟩).1 = ⟨404, "No reviews found for this movie"⟩ ∧
    (getAverageRating 5 ⟨[], [], []⟩).1 = ⟨404, "No reviews found for this movie"⟩ :=
  no_reviews_404 5 ⟨[], [], []⟩ rfl

/-- C2: a logged in user posting a review with only a movie id and rating 4
does not get a 201; the reviewAndRating schema marks reviewText as required,
so the save is rejected and the handler answers 500 with the datastore
unchanged, contradicting the route documentation that calls reviewText
optional.  Concretely: movie 1 exists with averageRating 0, user 7 exists and
has not reviewed it, and the create without reviewText returns the 500 error
envelope and leaves the state as it was. -/
theorem reviewText_required_breaks_optional_create :
    createReview ⟨some 1, some 4, none⟩ 7 0 0 ⟨[⟨1, [], [], [], 0, 0⟩], [7], []⟩ =
      (⟨500, "Error adding review"⟩, ⟨[⟨1, [], [], [], 0, 0⟩], [7], []⟩) := by
  decide

/-- C5: the notification batch does not implement the documented audience.  A
movie with genre Action releasing inside the window, an admin (role admin,
sendNotifications on, favorite genre Action) and a reminders only user (role
user, remindersForNewReleases on but sendNotifications off, favorite genre
Action) produce exactly one email, sent to the admin: the admin skip tests
user.type, which is undefined because the schema field is role, and the
reminders only user is silently dropped by the sendNotifications guard of
sendNotification. -/
theorem notification_sends_to_admin_and_skips_reminder_only_user :
    checkUpcomingMovies 0 30
      [⟨1, "M", ["Action"], [], 5⟩]
      [⟨"admin1", "adm@x.com", "admin", ["Action"], [], false, true⟩,
       ⟨"bob", "bob@x.com", "user", ["Action"], [], true, false⟩] = ["adm@x.com"] := by
  decide

/-- C7 counterexample: the limit coercion of GET /api/wishlist/ does not clamp
to a minimum of 1; a present limit parsing to 0 is used as 0. -/
theorem wishlist_limit_not_clamped :
    ¬ (∀ (v : QVal) (l : Int), wishlistLimitOf v = some l → 1 ≤ l) := by
  intro h
  exact absurd (h (some (some 0)) 0 rfl) (by decide)

/-- C7 amended: the listing endpoints coerce page and limit with parseInt and
default them to 1 and 10 when absent; the wishlist route clamps only page to a
minimum of 1 and uses limit exactly as parsed; the customlist all route clamps
both for numeric input; the upcoming route turns absent, NaN and 0 into the
defaults but passes negative values through; a present non numeric value
leaves NaN in page and limit on the wishlist and customlist routes. -/
theorem pagination_coercion_amended :
    wishlistPageOf none = some 1 ∧ wishlistLimitOf none = some 10 ∧
    wishlistPageOf (some none) = none ∧ wishlistLimitOf (some none) = none ∧
    (∀ k : Int, wishlistPageOf (some (some k)) = some (max 1 k)) ∧
    (∀ k : Int, wishlistLimitOf (some (some k)) = some k) ∧
    (∀ k : Int, customAllPageOf (some (some k)) = some (max 1 k)) ∧
    (∀ k : Int, customAllLimitOf (some (some k)) = some (max 1 k)) ∧
    (∀ k : Int, upcomingPageOf (some (some k)) = if k = 0 then 1 else k) ∧
    (∀ k : Int, upcomingLimitOf (some (some k)) = if k = 0 then 10 else k) ∧
    upcomingPageOf none = 1 ∧ upcomingLimitOf none = 10 :=
  ⟨rfl, rfl, rfl, rfl, fun _ => rfl, fun _ => rfl, fun _ => rfl, fun _ => rfl,
    fun _ => rfl, fun _ => rfl, rfl, rfl⟩

/-- C3 counterexample: GET /api/movies/upcoming reports totalPages as the
plain ceiling, so with no upcoming movies and limit 10 it answers totalPages
0 where the claimed formula gives 1. -/
theorem upcoming_totalPages_zero_when_empty :
    (upcomingMovies [] 0 1 10).totalPages = 0 ∧
    (upcomingMovies [] 0 1 10).totalPages ≠
      max 1 (jsCeilDiv (upcomingMovies [] 0 1 10).totalMovies 10) := by
  decide

/-- C4 counterexample: POST /api/wishlist/add never consults the Movie
collection.  With no stored movies at all, user 7 adds id 99 and the handler
answers success and persists 99 on the wishlist. -/
theorem wishlistAdd_accepts_nonexistent_movie :
    wishlistAdd (some 99) 7 ⟨[], [⟨7, []⟩]⟩ =
      (⟨200, "Movie added to wishlist successfully"⟩, ⟨[], [⟨7, [99]⟩]⟩) ∧
    (WishDB.movies ⟨[], [⟨7, []⟩]⟩).contains 99 = false := by
  decide

lemma jsCeilDiv_zero_left (limit : Nat) (h : 1 ≤ limit) : jsCeilDiv 0 limit = 0 := by
  unfold jsCeilDiv
  exact Nat.div_eq_of_lt (by omega)

lemma jsCeilDiv_pos (n limit : Nat) (hn : n ≠ 0) (h : 1 ≤ limit) :
    1 ≤ jsCeilDiv n limit := by
  unfold jsCeilDiv
  rw [Nat.le_div_iff_mul_le (by omega)]
  omega

lemma ifZero_eq_max_ceil (n limit : Nat) (h : 1 ≤ limit) :
    (if n == 0 then 1 else jsCeilDiv n limit) = max 1 (jsCeilDiv n limit) := by
  by_cases hn : n = 0
  · subst hn
    simp [jsCeilDiv_zero_left limit h]
  · rw [if_neg (by simpa using hn)]
    exact (Nat.max_eq_right (jsCeilDiv_pos n limit hn h)).symm

lemma pageWindow_length_le {α : Type _} (page limit : Nat) (l : List α) :
    (pageWindow page limit l).length ≤ limit := by
  simp only [pageWindow, List.length_take]
  exact Nat.min_le_left _ _

/-- C3 amended: for valid pagination parameters, GET /api/wishlist/ and
GET /api/customlist/all report totalPages as max(1, ceil(totalItems/limit)),
while GET /api/movies/upcoming reports the plain ceil(totalItems/limit),
which is 0 rather than 1 when there are no upcoming movies; every window
holds at most limit items. -/
theorem totalPages_clamped_except_upcoming :
    ∀ (page limit : Nat), 1 ≤ limit →
      (∀ (wl : List OId) (res : WishlistRes), wishlistGet wl page limit = some res →
        res.totalPages = max 1 (jsCeilDiv res.totalItems limit) ∧
        res.wishlist.length ≤ limit) ∧
      (∀ (ls : List OId) (res : CustomAllRes), customListsAll ls page limit = some res →
        res.totalPages = max 1 (jsCeilDiv res.totalItems limit) ∧
        res.customLists.length ≤ limit) ∧
      (∀ (ms : List Movie) (today : Int),
        (upcomingMovies ms today page limit).totalPages =
          jsCeilDiv (upcomingMovies ms today page limit).totalMovies limit ∧
        (upcomingMovies ms today page limit).data.length ≤ limit) := by
  intro page limit hlim
  refine ⟨?_, ?_, ?_⟩
  · intro wl res h
    unfold wishlistGet at h
    dsimp only at h
    split at h
    · exact absurd h (by simp)
    · injection h with h
      subst h
      exact ⟨ifZero_eq_max_ceil _ limit hlim, pageWindow_length_le page limit wl⟩
  · intro ls res h
    unfold customListsAll at h
    dsimp only at h
    split at h
    · exact absurd h (by simp)
    · injection h with h
      subst h
      exact ⟨ifZero_eq_max_ceil _ limit hlim, pageWindow_length_le page limit ls⟩
  · intro ms today
    exact ⟨rfl, pageWindow_length_le page limit _⟩

/-- Witness for totalPages_clamped_except_upcoming at page 1, limit 10, a one
element wishlist. -/
theorem totalPages_clamped_except_upcoming_witness :
    (WishlistRes.mk 1 1 1 [3]).totalPages =
      max 1 (jsCeilDiv (WishlistRes.mk 1 1 1 [3]).totalItems 10) ∧
    (WishlistRes.mk 1 1 1 [3]).wishlist.length ≤ 10 :=
  (totalPages_clamped_except_upcoming 1 10 (by decide)).1 [3] ⟨1, 1, 1, [3]⟩ (by decide)

lemma mem_setMovieRating_mid (m : OId) (q : ℚ) (db : ReviewDB) :
    ∀ mv ∈ (setMovieRating m q db).movies, mv.mid = m → mv.averageRating = q := by
  intro mv hmv hmid
  simp only [setMovieRating, List.mem_map] at hmv
  obtain ⟨pre, hpre, heq⟩ := hmv
  by_cases hb : (pre.mid == m) = true
  · rw [if_pos hb] at heq
    subst heq
    rfl
  · rw [if_neg hb] at heq
    subst heq
    exact absurd hmid (by simpa using hb)

lemma ratingConsistentAt_updateMovieRating (m : OId) (db : ReviewDB) :
    ratingConsistentAt (updateMovieRating m db) m := by
  intro mv hmv hmid
  have hrev : reviewsFor (updateMovieRating m db) m = reviewsFor db m := rfl
  rw [hrev]
  exact mem_setMovieRating_mid m _ db mv hmv hmid

/-- C1: whenever a review create (POST /api/reviews/) answers 201 or a review
update (PUT /api/reviews/:reviewId) answers 200, the averageRating stored on
the target movie in the resulting state equals the exact arithmetic mean of
the ratings of all reviews stored for that movie in that state. -/
theorem movieRating_mean_after_review_write :
    (∀ (b : CreateBody) (u rid : OId) (now : Nat) (db : ReviewDB) (out : HttpOut)
        (db2 : ReviewDB) (m : OId),
      createReview b u rid now db = (out, db2) → out.status = 201 → b.movie = some m →
      ratingConsistentAt db2 m) ∧
    (∀ (reviewId : OId) (b : UpdateBody) (u : OId) (now : Nat) (db : ReviewDB)
        (out : HttpOut) (db2 : ReviewDB) (r : Review),
      updateReview reviewId b u now db = (out, db2) → out.status = 200 →
      db.reviews.find? (fun y => y.rid == reviewId) = some r →
      ratingConsistentAt db2 r.movie) := by
  constructor
  · intro b u rid now db out db2 m heq h201 hm
    unfold createReview at heq
    rw [hm] at heq
    rcases hr : b.rating with _ | q
    all_goals rw [hr] at heq
    all_goals dsimp only at heq
    · injection heq with h1 h2
      subst h1
      exact absurd h201 (by decide)
    · repeat' split at heq
      all_goals injection heq with h1 h2
      all_goals subst h1
      all_goals subst h2
      all_goals try exact absurd h201 (by decide)
      exact ratingConsistentAt_updateMovieRating m _
  · intro reviewId b u now db out db2 r heq h200 hfind
    unfold updateReview at heq
    cases hb1 : truthyRating b.rating
    all_goals cases hb2 : truthyText b.reviewText
    all_goals rw [hb1, hb2] at heq
    all_goals rw [hfind] at heq
    all_goals dsimp only at heq
    all_goals repeat' split at heq
    all_goals injection heq with h1 h2
    all_goals subst h1
    all_goals subst h2
    all_goals try exact absurd h200 (by decide)
    all_goals exact ratingConsistentAt_updateMovieRating r.movie _

/-- Witness for movieRating_mean_after_review_write: movie 1 with stale
rating 0 and user 7; the create of a rating 4 review succeeds and the
resulting state stores the mean of the single review as averageRating. -/
theorem movieRating_mean_after_review_write_witness :
    ratingConsistentAt
      (createReview ⟨some 1, some 4, some "good"⟩ 7 0 0
        ⟨[⟨1, [], [], [], 0, 0⟩], [7], []⟩).2 1 :=
  movieRating_mean_after_review_write.1 ⟨some 1, some 4, some "good"⟩ 7 0 0
    ⟨[⟨1, [], [], [], 0, 0⟩], [7], []⟩ _ _ 1 rfl (by decide) rfl

lemma pairsUnique_append_new (db : ReviewDB) (r : Review)
    (hnone : ¬ ((db.reviews.find? (fun x => x.user == r.user && x.movie == r.movie)).isSome = true))
    (h : pairsUnique db) :
    (db.reviews ++ [r]).Pairwise (fun a b => ¬(pairOf a = pairOf b)) := by
  rw [List.pairwise_append]
  refine ⟨h, List.pairwise_singleton _ _, ?_⟩
  intro a ha b hb
  simp only [List.mem_singleton] at hb
  subst hb
  intro hpair
  apply hnone
  rw [List.find?_isSome]
  refine ⟨a, ha, ?_⟩
  have h1 : a.user = b.user := congrArg Prod.fst hpair
  have h2 : a.movie = b.movie := congrArg Prod.snd hpair
  simp [h1, h2]

lemma find_rid_unique :
    ∀ (l : List Review) (rid0 : OId) (r x : Review),
      (l.map Review.rid).Nodup → l.find? (fun y => y.rid == rid0) = some r →
      x ∈ l → x.rid = rid0 → x = r := by
  intro l
  induction l with
  | nil =>
    intro rid0 r x _ _ hx _
    exact absurd hx (List.not_mem_nil x)
  | cons y ys ih =>
    intro rid0 r x hnd hf hx hxr
    rw [List.map_cons, List.nodup_cons] at hnd
    simp only [List.find?] at hf
    rcases hy : (y.rid == rid0) with _ | _
    · rw [hy] at hf
      dsimp only at hf
      rcases List.mem_cons.mp hx with hxy | hxs
      · have hyr : y.rid = rid0 := by rw [← hxy]; exact hxr
        exact absurd hyr (by simpa using hy)
      · exact ih rid0 r x hnd.2 hf hxs hxr
    · rw [hy] at hf
      dsimp only at hf
      injection hf with hf
      rcases List.mem_cons.mp hx with hxy | hxs
      · exact hxy.trans hf
      · have hyrid : y.rid = rid0 := by simpa using hy
        have hmem : y.rid ∈ List.map Review.rid ys := by
          have h0 := List.mem_map_of_mem Review.rid hxs
          rwa [hxr, ← hyrid] at h0
        exact absurd hmem hnd.1

lemma pairwise_map_pair_preserving :
    ∀ (l : List Review) (f : Review → Review),
      (∀ x ∈ l, pairOf (f x) = pairOf x) →
      l.Pairwise (fun a b => ¬(pairOf a = pairOf b)) →
      (l.map f).Pairwise (fun a b => ¬(pairOf a = pairOf b)) := by
  intro l f
  induction l with
  | nil =>
    intro _ _
    simp
  | cons a l ih =>
    intro hp hpw
    rw [List.pairwise_cons] at hpw
    rw [List.map_cons, List.pairwise_cons]
    refine ⟨?_, ih (fun x hx => hp x (List.mem_cons_of_mem a hx)) hpw.2⟩
    intro b hb
    rw [List.mem_map] at hb
    obtain ⟨x, hx, hfx⟩ := hb
    subst hfx
    rw [hp a (List.mem_cons_self a l), hp x (List.mem_cons_of_mem a hx)]
    exact hpw.1 x hx

lemma reviewPostSaveHook_reviews (m : OId) (db dbh : ReviewDB) :
    reviewPostSaveHook m db = some dbh → dbh.reviews = db.reviews ∧ dbh.users = db.users := by
  unfold reviewPostSaveHook
  rcases findMovie db m with _ | mv
  · intro h
    exact absurd h (by simp)
  · intro h
    injection h with h
    subst h
    exact ⟨rfl, rfl⟩

lemma pair_preserved_update (db : ReviewDB) (reviewId : OId) (r r3 : Review)
    (hnd : (db.reviews.map Review.rid).Nodup)
    (hfind : db.reviews.find? (fun y => y.rid == reviewId) = some r)
    (hpr : pairOf r3 = pairOf r) :
    ∀ x ∈ db.reviews, pairOf (if x.rid == reviewId then r3 else x) = pairOf x := by
  intro x hx
  by_cases hxr : (x.rid == reviewId) = true
  · rw [if_pos hxr, find_rid_unique db.reviews reviewId r x hnd hfind hx (by simpa using hxr)]
    exact hpr
  · rw [if_neg hxr]

/-- C6: one review per (user, movie) pair.  First, a well formed second POST
for an already reviewed movie is rejected with the 400 conflict message and
leaves the state untouched.  Second and third, both the create and the update
handler preserve uniqueness of the (user, movie) pair across the review
collection, the update under the datastore guarantee that document ids are
distinct. -/
theorem review_pair_unique :
    (∀ (b : CreateBody) (u rid : OId) (now : Nat) (db : ReviewDB) (m : OId) (q : ℚ),
      b.movie = some m → b.rating = some q → q ≠ 0 → 1 ≤ q → q ≤ 5 →
      (findMovie db m).isSome = true → db.users.contains u = true →
      (∃ x ∈ db.reviews, x.user = u ∧ x.movie = m) →
      createReview b u rid now db = (⟨400, "You have already reviewed this movie"⟩, db)) ∧
    (∀ (b : CreateBody) (u rid : OId) (now : Nat) (db : ReviewDB),
      pairsUnique db → pairsUnique (createReview b u rid now db).2) ∧
    (∀ (reviewId : OId) (b : UpdateBody) (u : OId) (now : Nat) (db : ReviewDB),
      (db.reviews.map Review.rid).Nodup → pairsUnique db →
      pairsUnique (updateReview reviewId b u now db).2) := by
  refine ⟨?_, ?_, ?_⟩
  · intro b u rid now db m q hm hq hq0 h1q hq5 hmov huser hexist
    unfold createReview
    rw [hm, hq]
    dsimp only
    rw [if_neg (by simpa using hq0)]
    rw [if_neg (by simp [not_lt.mpr h1q, not_lt.mpr hq5])]
    rcases hfm : findMovie db m with _ | mv
    · rw [hfm] at hmov
      exact absurd hmov (by simp)
    · rw [huser]
      obtain ⟨x, hx, hx1, hx2⟩ := hexist
      have hsome : (db.reviews.find? (fun r => r.user == u && r.movie == m)).isSome = true := by
        rw [List.find?_isSome]
        exact ⟨x, hx, by simp [hx1, hx2]⟩
      rw [hsome]
      rfl
  · intro b u rid now db huniq
    rcases hm : b.movie with _ | m <;> rcases hr : b.rating with _ | q <;>
      simp only [createReview] <;> rw [hm, hr] <;> dsimp only
    · exact huniq
    · exact huniq
    · exact huniq
    · split
      next => exact huniq
      next hq0 =>
        split
        next => exact huniq
        next hrange =>
          split
          next hfm => exact huniq
          next mv hfm =>
            split
            next => exact huniq
            next hcont =>
              split
              next => exact huniq
              next hfound =>
                split
                next => exact huniq
                next htext =>
                  split
                  next hhx => exact pairsUnique_append_new db _ hfound huniq
                  next dbh hhook =>
                    show List.Pairwise (fun a b => ¬(pairOf a = pairOf b)) dbh.reviews
                    rw [(reviewPostSaveHook_reviews _ _ _ hhook).1]
                    exact pairsUnique_append_new db _ hfound huniq
  · intro reviewId b u now db hnd huniq
    rcases hfind : db.reviews.find? (fun y => y.rid == reviewId) with _ | r <;>
      cases hb1 : truthyRating b.rating <;> cases hb2 : truthyText b.reviewText <;>
      simp only [updateReview] <;> rw [hb1, hb2, hfind] <;> dsimp only
    all_goals try exact huniq
    all_goals {
      split
      next => exact huniq
      next h1 =>
        split
        next => exact huniq
        next h2 =>
          first
          | exact huniq
          | (split
             next => exact huniq
             next hown =>
               split
               next hhx =>
                 refine pairwise_map_pair_preserving db.reviews _ ?_ huniq
                 exact pair_preserved_update db reviewId r _ hnd hfind rfl
               next dbh hhook =>
                 show List.Pairwise (fun a b => ¬(pairOf a = pairOf b)) dbh.reviews
                 rw [(reviewPostSaveHook_reviews _ _ _ hhook).1]
                 refine pairwise_map_pair_preserving db.reviews _ ?_ huniq
                 exact pair_preserved_update db reviewId r _ hnd hfind rfl)
    }

/-- Witness for review_pair_unique: user 7 already reviewed movie 1, and a
second well formed POST is answered 400 with the state unchanged. -/
theorem review_pair_unique_witness :
    createReview ⟨some 1, some 4, some "again"⟩ 7 1 5
        ⟨[⟨1, [], [], [], 0, 4⟩], [7], [⟨0, 7, 1, 4, "good", 0, 0⟩]⟩ =
      (⟨400, "You have already reviewed this movie"⟩,
        ⟨[⟨1, [], [], [], 0, 4⟩], [7], [⟨0, 7, 1, 4, "good", 0, 0⟩]⟩) :=
  review_pair_unique.1 ⟨some 1, some 4, some "again"⟩ 7 1 5
    ⟨[⟨1, [], [], [], 0, 4⟩], [7], [⟨0, 7, 1, 4, "good", 0, 0⟩]⟩ 1 4
    rfl rfl (by decide) (by decide) (by decide) rfl rfl
    ⟨⟨0, 7, 1, 4, "good", 0, 0⟩, by decide, rfl, rfl⟩

/-- C10: a successful PUT /api/reviews/:reviewId rewrites the review
collection by replacing the addressed review with a review that keeps its id,
user reference, movie reference and createdAt, so an update can only change
rating, reviewText and updatedAt and never moves a review to a different
(user, movie) pair; the user collection is untouched. -/
theorem update_review_frame :
    ∀ (reviewId : OId) (b : UpdateBody) (u : OId) (now : Nat) (db : ReviewDB)
      (out : HttpOut) (db2 : ReviewDB) (r : Review),
      updateReview reviewId b u now db = (out, db2) → out.status = 200 →
      db.reviews.find? (fun y => y.rid == reviewId) = some r →
      db2.users = db.users ∧
      (∃ r3 : Review,
        db2.reviews = db.reviews.map (fun x => if x.rid == reviewId then r3 else x) ∧
        r3.rid = r.rid ∧ r3.user = r.user ∧ r3.movie = r.movie ∧
        r3.createdAt = r.createdAt ∧ r3.updatedAt = now) := by
  intro reviewId b u now db out db2 r heq h200 hfind
  unfold updateReview at heq
  cases hb1 : truthyRating b.rating <;> cases hb2 : truthyText b.reviewText <;>
    rw [hb1, hb2, hfind] at heq <;> dsimp only at heq
  all_goals repeat' split at heq
  all_goals injection heq with hout hdb
  all_goals subst hout
  all_goals subst hdb
  all_goals try exact absurd h200 (by decide)
  all_goals rename reviewPostSaveHook _ _ = some _ => hhook
  all_goals first
    | exact ⟨(reviewPostSaveHook_reviews _ _ _ hhook).2,
        ⟨{ r with rating := b.rating.getD r.rating, updatedAt := now },
          (reviewPostSaveHook_reviews _ _ _ hhook).1, rfl, rfl, rfl, rfl, rfl⟩⟩
    | exact ⟨(reviewPostSaveHook_reviews _ _ _ hhook).2,
        ⟨{ r with reviewText := b.reviewText.getD r.reviewText, updatedAt := now },
          (reviewPostSaveHook_reviews _ _ _ hhook).1, rfl, rfl, rfl, rfl, rfl⟩⟩
    | exact ⟨(reviewPostSaveHook_reviews _ _ _ hhook).2,
        ⟨{ r with rating := b.rating.getD r.rating, reviewText := b.reviewText.getD r.reviewText, updatedAt := now },
          (reviewPostSaveHook_reviews _ _ _ hhook).1, rfl, rfl, rfl, rfl, rfl⟩⟩
    | exact ⟨(reviewPostSaveHook_reviews _ _ _ hhook).2,
        ⟨{ r with updatedAt := now },
          (reviewPostSaveHook_reviews _ _ _ hhook).1, rfl, rfl, rfl, rfl, rfl⟩⟩

/-- Witness for update_review_frame: user 7 updates the rating of review 0
from 4 to 5; the frame property holds in the resulting state. -/
theorem update_review_frame_witness :
    (updateReview 0 ⟨some 5, none⟩ 7 9
        ⟨[⟨1, [], [], [], 0, 4⟩], [7], [⟨0, 7, 1, 4, "good", 0, 0⟩]⟩).2.users =
      (⟨[⟨1, [], [], [], 0, 4⟩], [7], [⟨0, 7, 1, 4, "good", 0, 0⟩]⟩ : ReviewDB).users ∧
    (∃ r3 : Review,
      (updateReview 0 ⟨some 5, none⟩ 7 9
          ⟨[⟨1, [], [], [], 0, 4⟩], [7], [⟨0, 7, 1, 4, "good", 0, 0⟩]⟩).2.reviews =
        (⟨[⟨1, [], [], [], 0, 4⟩], [7],
          [⟨0, 7, 1, 4, "good", 0, 0⟩]⟩ : ReviewDB).reviews.map
          (fun x => if x.rid == 0 then r3 else x) ∧
      r3.rid = (⟨0, 7, 1, 4, "good", 0, 0⟩ : Review).rid ∧
      r3.user = (⟨0, 7, 1, 4, "good", 0, 0⟩ : Review).user ∧
      r3.movie = (⟨0, 7, 1, 4, "good", 0, 0⟩ : Review).movie ∧
      r3.createdAt = (⟨0, 7, 1, 4, "good", 0, 0⟩ : Review).createdAt ∧
      r3.updatedAt = 9) :=
  update_review_frame 0 ⟨some 5, none⟩ 7 9
    ⟨[⟨1, [], [], [], 0, 4⟩], [7], [⟨0, 7, 1, 4, "good", 0, 0⟩]⟩ _ _
    ⟨0, 7, 1, 4, "good", 0, 0⟩ rfl (by decide) rfl

/-- C4 amended: reference id validation is uneven.  POST /api/wishlist/add
performs no existence check at all: for any user and any movie id not yet on
the wishlist, the handler succeeds and appends the id, whatever the Movie
collection contains.  PUT /api/news/update-news/:id does validate the
requested related movie ids, but through checkObjectIdsExist, which queries
the Person collection: when some requested id is missing there, the request
is rejected with a message listing the offending ids and the state is
unchanged. -/
theorem reference_id_checks_amended :
    (∀ (m u : OId) (db : WishDB) (wu : WUser),
      db.users.find? (fun x => x.uid == u) = some wu →
      wu.wishlist.contains m = false →
      wishlistAdd (some m) u db =
        (⟨200, "Movie added to wishlist successfully"⟩,
          { db with users := db.users.map (fun x =>
              if x.uid == u then { x with wishlist := x.wishlist ++ [m] } else x) })) ∧
    (∀ (nid : OId) (body : NewsUpdateBody) (db : NewsDB) (rms : List OId) (a : News),
      body.relatedMovies = some rms →
      db.newsArticles.find? (fun n => n.nid == nid) = some a →
      (truthyText body.category &&
        !(validCategories.contains (body.category.getD ""))) = false →
      checkObjectIdsExist rms db ≠ [] →
      updateNews nid body "admin" db =
        (⟨400, idsMessage "The following related movie IDs do not exist: "
            (checkObjectIdsExist rms db)⟩, db)) := by
  constructor
  · intro m u db wu hfu hwl
    unfold wishlistAdd
    rw [hfu]
    dsimp only
    rw [hwl]
    rfl
  · intro nid body db rms a hrm hfa hcat hinv
    have hlen : 0 < (checkObjectIdsExist rms db).length :=
      List.length_pos.mpr hinv
    unfold updateNews updateNewsE
    rw [hfa]
    try dsimp only
    rw [hcat, hrm]
    try dsimp only
    rw [if_pos hlen]
    rfl

/-- Witness for reference_id_checks_amended: user 7 with an empty wishlist
adds the unknown movie id 99 while the Movie collection is empty; the add
succeeds and stores 99. -/
theorem reference_id_checks_amended_witness :
    wishlistAdd (some 99) 7 ⟨[], [⟨7, [5]⟩]⟩ =
      (⟨200, "Movie added to wishlist successfully"⟩,
        { WishDB.mk [] [⟨7, [5]⟩] with users := [WUser.mk 7 [5]].map (fun x =>
            if x.uid == 7 then { x with wishlist := x.wishlist ++ [99] } else x) }) :=
  reference_id_checks_amended.1 99 7 ⟨[], [⟨7, [5]⟩]⟩ ⟨7, [5]⟩ rfl rfl

end MMS
